import Mathlib

/-!
# YesVNC web client (`web/app.js`): connection lifecycle and configuration loading

A shallow embedding of the class `YesVNCClient` of `web/app.js`.

* The controller fields (`rfb`, `connected`, `connecting`, `config`) and the
  parts of the page the methods read or write are fields of `Client`.
* Calls that leave the controller (the `RFB` constructor and the methods of
  the handle, timers, the console, the platform full-screen capability) and
  the calls of `showNotification` and `updateStatus` are appended to
  `Client.log`, in program order.
* What the surroundings decide (whether `RFB` is defined, whether a script
  loads, whether the constructor throws) is an argument of the method.
* The page elements looked up by `initializeElements` exist, and the calls
  `addEventListener` and the property assignments on a handle do not throw.
* An `async` method is run to the end of its promise; the pieces of `connect`
  that the event loop runs separately while `connect` waits for `loadNoVNC`
  are also actions of their own in `step`.
-/

namespace YesVNC

/-! ## JavaScript values used by the controller -/

/-- The result of `parseInt`: `NaN`, a Number whose value is the integer `i`
(`-0` is `int 0`), or `±Infinity`. A Number other than these is not an integer
and `parseInt` does not return it. -/
inductive JsNumber where
  | nan
  | int (i : Int)
  | inf (neg : Bool)
  deriving DecidableEq, Repr

/-- A value read from the configuration document. `other` is any value that is
not `null`, a boolean, a safe integer or a string (a fraction, an array, an
object), given by what `ToBoolean` and `ToString` make of it. -/
inductive JsVal where
  | null
  | bool (b : Bool)
  | num (i : Int)
  | str (s : String)
  | other (truthy : Bool) (text : String)
  deriving DecidableEq, Repr

/-- Decimal digits of an integer, as `Number::toString` prints a safe integer. -/
def decimal : Int → String
  | Int.ofNat n => toString n
  | Int.negSucc n => "-" ++ toString (n + 1)

/-- ECMAScript `WhiteSpace` and `LineTerminator` code points: what
`String.prototype.trim` and `parseInt` strip. -/
def isJsWhiteSpace (ch : Char) : Bool :=
  let n := ch.toNat
  n == 0x09 || n == 0x0A || n == 0x0B || n == 0x0C || n == 0x0D || n == 0x20 ||
  n == 0xA0 || n == 0x1680 || (0x2000 ≤ n && n ≤ 0x200A) || n == 0x2028 ||
  n == 0x2029 || n == 0x202F || n == 0x205F || n == 0x3000 || n == 0xFEFF

/-- The method `String.prototype.trim`. -/
def jsTrim (s : String) : String :=
  String.mk ((((s.data.dropWhile isJsWhiteSpace).reverse).dropWhile isJsWhiteSpace).reverse)

/-- Value of a digit or letter as a digit of `parseInt`. -/
def digitValue (ch : Char) : Option Nat :=
  let n := ch.toNat
  if 48 ≤ n ∧ n ≤ 57 then some (n - 48)
  else if 97 ≤ n ∧ n ≤ 122 then some (n - 97 + 10)
  else if 65 ≤ n ∧ n ≤ 90 then some (n - 65 + 10)
  else none

/-- Whether `ch` is a digit in radix `R`. -/
def isRadixDigit (R : Nat) (ch : Char) : Bool :=
  match digitValue ch with
  | some d => decide (d < R)
  | none => false

/-- Sign step of `parseInt`: a leading `-` or `+` is removed; the flag says
whether the sign is negative. -/
def splitSign : List Char → Bool × List Char
  | '-' :: r => (true, r)
  | '+' :: r => (false, r)
  | S => (false, S)

/-- Radix step of `parseInt` called without a radix: a leading `0x` or `0X` is
removed and selects radix 16, otherwise the radix is 10. -/
def splitRadix : List Char → Nat × List Char
  | '0' :: 'x' :: r => (16, r)
  | '0' :: 'X' :: r => (16, r)
  | S => (10, S)

/-- Number of binary digits of `m`. -/
def bitLength (m : Nat) : Nat := (Nat.toDigits 2 m).length

/-- The Number nearest to the natural number `m` (ties to the even
significand), as a natural number; `none` is `Infinity`. Below `2^53` every
natural number is a Number. -/
def roundToDouble (m : Nat) : Option Nat :=
  if m < 2 ^ 53 then some m
  else
    let e := bitLength m - 53
    let q := m / 2 ^ e
    let r := m % 2 ^ e
    let half := 2 ^ (e - 1)
    let q1 := if half < r ∨ (r = half ∧ q % 2 = 1) then q + 1 else q
    let v := q1 * 2 ^ e
    if bitLength v ≤ 1024 then some v else none

/-- The global function `parseInt(string)` with no radix argument. The digits
are converted exactly and rounded once, as the engines do (ECMAScript lets an
implementation replace the decimal digits after the 20th by zeros). -/
def parseInt (s : String) : JsNumber :=
  let S := s.data.dropWhile isJsWhiteSpace
  let sg := splitSign S
  let rd := splitRadix sg.2
  let Z := rd.2.takeWhile (isRadixDigit rd.1)
  if Z = [] then JsNumber.nan
  else
    let mathInt := Z.foldl (fun acc ch => acc * rd.1 + (digitValue ch).getD 0) 0
    match roundToDouble mathInt with
    | some v => JsNumber.int (if sg.1 then - (v : Int) else (v : Int))
    | none => JsNumber.inf sg.1

/-- The operation `ToBoolean` on a Number: `NaN` and `±0` are falsy. -/
def JsNumber.truthy : JsNumber → Bool
  | JsNumber.nan => false
  | JsNumber.int i => decide (i ≠ 0)
  | JsNumber.inf _ => true

/-- The digits `s` of `Number::toString` with `k` digits for the Number `v`
that has `d` decimal digits, when there are any: of the two multiples of
`10^(d-k)` next to `v`, one that rounds to `v`, the nearer when both do. -/
def digitsCandidate (v d k : Nat) : Option Nat :=
  let p := 10 ^ (d - k)
  let lo := v / p
  let hi := lo + 1
  let okLo := roundToDouble (lo * p) == some v
  let okHi := decide (hi < 10 ^ k) && roundToDouble (hi * p) == some v
  if okLo && okHi then
    let dLo := v - lo * p
    let dHi := hi * p - v
    if dLo < dHi then some lo
    else if dHi < dLo then some hi
    else if lo % 2 = 0 then some lo else some hi
  else if okLo then some lo
  else if okHi then some hi
  else none

/-- The integers `s`, `k`, `n` of `Number::toString` for a Number with the
positive integer value `v`: `s` has `k` digits, `s * 10^(n-k)` rounds to `v`,
and `k` is as small as possible. -/
def shortestDigits (v : Nat) : Nat × Nat × Nat :=
  let d := (Nat.repr v).length
  if roundToDouble (10 ^ d) == some v then (1, 1, d + 1)
  else
    match (List.range d).findSome?
        (fun j => (digitsCandidate v d (j + 1)).map (fun s => (s, j + 1))) with
    | some (s, k) => (s, k, d)
    | none => (v, d, d)

/-- The text `Number::toString` gives for a Number with the positive integer
value `v`: the digits followed by zeros up to 21 digits, the exponent form
beyond. -/
def integerToString (v : Nat) : String :=
  let skn := shortestDigits v
  let s := skn.1
  let k := skn.2.1
  let n := skn.2.2
  let ds := Nat.repr s
  if n ≤ 21 then ds ++ String.mk (List.replicate (n - k) '0')
  else if k = 1 then ds ++ "e+" ++ Nat.repr (n - 1)
  else String.mk (ds.data.take 1) ++ "." ++ String.mk (ds.data.drop 1) ++ "e+" ++
    Nat.repr (n - 1)

/-- The conversion of a Number to text in a template literal
(`Number::toString`). A safe integer (below `2^53` in absolute value) prints as
its decimal digits. -/
def numberToString : JsNumber → String
  | JsNumber.nan => "NaN"
  | JsNumber.inf neg => if neg then "-Infinity" else "Infinity"
  | JsNumber.int i =>
    if i.natAbs < 2 ^ 53 then decimal i
    else (if i < 0 then "-" else "") ++ integerToString i.natAbs

/-- The operation `ToBoolean` on a possibly absent configuration value. -/
def truthy : Option JsVal → Bool
  | none => false
  | some JsVal.null => false
  | some (JsVal.bool b) => b
  | some (JsVal.num i) => decide (i ≠ 0)
  | some (JsVal.str s) => decide (s ≠ "")
  | some (JsVal.other t _) => t

/-- The expression `v || d`. -/
def orElse (v : Option JsVal) (d : JsVal) : JsVal :=
  match v with
  | some x => if truthy (some x) then x else d
  | none => d

/-- The operation `ToString` on a configuration value, as applied when the
value is assigned to `input.value` or `document.title`. -/
def JsVal.text : JsVal → String
  | JsVal.null => "null"
  | JsVal.bool b => if b then "true" else "false"
  | JsVal.num i => decimal i
  | JsVal.str s => s
  | JsVal.other _ t => t

/-! ## Configuration -/

/-- A configuration object: the value of each key, `none` where reading the
key gives `undefined`. -/
abbrev Config := String → Option JsVal

/-- The object literal of the constructor (`this.config` is set to an object
with no keys). -/
def emptyConfig : Config := fun _ => none

/-- The method `getDefaultConfig`. -/
def getDefaultConfig : Config := fun k =>
  if k = "webPort" then some (JsVal.num 8080)
  else if k = "websocketPort" then some (JsVal.num 6080)
  else if k = "vncHost" then some (JsVal.str "localhost")
  else if k = "vncPort" then some (JsVal.num 5901)
  else if k = "title" then some (JsVal.str "YesVNC - Remote Desktop")
  else if k = "autoConnect" then some (JsVal.bool false)
  else if k = "encryption" then some (JsVal.bool false)
  else if k = "resizeSession" then some (JsVal.bool true)
  else if k = "showDotCursor" then some (JsVal.bool false)
  else if k = "logging" then some (JsVal.str "warn")
  else none

/-- The keys of the object `getDefaultConfig` returns. -/
def configKeys : List String :=
  ["webPort", "websocketPort", "vncHost", "vncPort", "title", "autoConnect",
   "encryption", "resizeSession", "showDotCursor", "logging"]

/-! ## Controller state -/

/-- The client handle: the object `new RFB(...)` returned, known by the
arguments it was constructed with and by the three properties `connect`
assigns to it. The property `resizeSession` holds a boolean. -/
structure Rfb where
  url : String
  password : String
  shared : Bool
  showDotCursor : JsVal
  viewOnly : Bool
  scaleViewport : Bool
  resizeSession : Bool
  deriving DecidableEq, Repr

/-- The callbacks handed to `setTimeout`. -/
inductive Callback where
  | connect
  | resizeSession
  | hideNotification
  deriving DecidableEq, Repr

/-- The three vendor names under which the full-screen capability is looked up. -/
inductive Vendor where
  | standard
  | webkit
  | ms
  deriving DecidableEq, Repr

/-- Calls recorded in `Client.log`. -/
inductive Effect where
  | showNotification (message type : String)
  | updateStatus (state message : String)
  | newRFB (url password : String) (shared : Bool) (showDotCursor : JsVal)
  | addEventListener (event : String)
  | setViewOnly (b : Bool)
  | setScaleViewport (b : Bool)
  | setResizeSession (b : Bool)
  | rfbDisconnect
  | rfbSendCtrlAltDel
  | setTimeout (cb : Callback) (ms : Nat)
  | consoleWarn (text : String)
  | consoleError (text : String)
  | appendScript (src : String)
  | navigate (href : String)
  | focusPassword
  | requestFullscreen (v : Vendor)
  | exitFullscreen (v : Vendor)
  deriving DecidableEq, Repr

/-- The page elements the methods read or write. -/
structure Dom where
  hostValue : String
  portValue : String
  passwordValue : String
  encryptChecked : Bool
  resizeChecked : Bool
  viewOnlyChecked : Bool
  statusIndicatorClass : String
  statusText : String
  connectBtnDisabled : Bool
  disconnectBtnDisabled : Bool
  fullscreenBtnDisabled : Bool
  ctrlAltDelBtnDisabled : Bool
  screenshotBtnDisabled : Bool
  connectionPanelDisplay : String
  vncContainerDisplay : String
  vncContainerFullscreen : Bool
  loadingOverlayDisplay : String
  loadingText : String
  connectionInfoText : String
  notificationText : String
  notificationClass : String
  notificationDisplay : String
  title : String
  deriving DecidableEq, Repr

/-- The controller: the fields of `YesVNCClient`, the page, and the log of calls. -/
structure Client where
  rfb : Option Rfb
  connected : Bool
  connecting : Bool
  config : Config
  dom : Dom
  log : List Effect

/-- What the surroundings decide during `connect`. -/
structure Env where
  /-- Whether `typeof RFB` is not `undefined` when `connect` checks it. -/
  rfbDefined : Bool
  /-- Whether the script `../noVNC/app/ui.js` loads. -/
  uiScriptLoads : Bool
  /-- Whether the script `../noVNC/core/rfb.js` loads. -/
  rfbScriptLoads : Bool
  /-- Whether `RFB` is defined once `loadNoVNC` has resolved. -/
  rfbDefinedAfterLoad : Bool
  /-- The message of the error the `RFB` constructor throws, `none` when it
  returns a handle. -/
  ctorThrows : Option String

/-- What the platform reports to the full-screen methods. -/
structure Platform where
  fullscreenElementIsContainer : Bool
  webkitFullscreenElementIsContainer : Bool
  msFullscreenElementIsContainer : Bool
  hasRequestFullscreen : Bool
  hasWebkitRequestFullscreen : Bool
  hasMsRequestFullscreen : Bool
  hasExitFullscreen : Bool
  hasWebkitExitFullscreen : Bool
  hasMsExitFullscreen : Bool
  deriving DecidableEq, Repr

/-! ## Methods of `YesVNCClient` -/

/-- The method `updateStatus(state, message)`. -/
def updateStatus (state message : String) (c : Client) : Client :=
  let d := { c.dom with
    statusIndicatorClass := "status-indicator " ++ state
    statusText := message }
  let d :=
    if state = "connected" then
      { d with
        connectBtnDisabled := true
        disconnectBtnDisabled := false
        fullscreenBtnDisabled := false
        ctrlAltDelBtnDisabled := false
        screenshotBtnDisabled := false }
    else if state = "connecting" then
      { d with
        connectBtnDisabled := true
        disconnectBtnDisabled := false }
    else
      { d with
        connectBtnDisabled := false
        disconnectBtnDisabled := true
        fullscreenBtnDisabled := true
        ctrlAltDelBtnDisabled := true
        screenshotBtnDisabled := true }
  { c with dom := d, log := c.log ++ [Effect.updateStatus state message] }

/-- The method `showLoading(message)`. -/
def showLoading (message : String) (c : Client) : Client :=
  { c with dom := { c.dom with loadingText := message, loadingOverlayDisplay := "flex" } }

/-- The method `hideLoading`. -/
def hideLoading (c : Client) : Client :=
  { c with dom := { c.dom with loadingOverlayDisplay := "none" } }

/-- The method `showNotification(message, type)`. -/
def showNotification (message type : String) (c : Client) : Client :=
  { c with
    dom := { c.dom with
      notificationText := message
      notificationClass := "notification " ++ type
      notificationDisplay := "block" }
    log := c.log ++ [Effect.showNotification message type,
                     Effect.setTimeout Callback.hideNotification 5000] }

/-- The method `hideNotification`. -/
def hideNotification (c : Client) : Client :=
  { c with dom := { c.dom with notificationDisplay := "none" } }

/-- The method `onConnectionError(error)`, given `error.message`. -/
def onConnectionError (message : String) (c : Client) : Client :=
  let c := { c with connecting := false }
  let c := hideLoading c
  let c := updateStatus "disconnected" "Connection failed" c
  showNotification ("Connection failed: " ++ message) "error" c

/-- The `catch` block of `connect`. -/
def connectCatch (message : String) (c : Client) : Client :=
  let c := { c with log := c.log ++ [Effect.consoleError ("Connection error: " ++ message)] }
  onConnectionError message c

/-- The values `connect` reads from the form before validating. -/
structure ConnectLocals where
  host : String
  port : JsNumber
  password : String
  encrypt : Bool
  deriving DecidableEq, Repr

/-- The text of the reference error thrown when `RFB` is read while undefined. -/
def rfbNotDefined : String := "RFB is not defined"

/-- The rest of the `try` block of `connect` from `// Build WebSocket URL` on.
`defined` says whether `RFB` is defined when the constructor is reached. -/
def connectBuild (env : Env) (defined : Bool) (l : ConnectLocals) (c : Client) : Client :=
  let protocol := if l.encrypt then "wss:" else "ws:"
  let wsUrl := protocol ++ "//" ++ l.host ++ ":" ++ numberToString l.port ++ "/websockify"
  if defined then
    let shared := !c.dom.viewOnlyChecked
    let dot := orElse (c.config "showDotCursor") (JsVal.bool false)
    let c := { c with log := c.log ++ [Effect.newRFB wsUrl l.password shared dot] }
    match env.ctorThrows with
    | some message => connectCatch message c
    | none =>
      { c with
        rfb := some
          { url := wsUrl, password := l.password, shared := shared, showDotCursor := dot,
            viewOnly := c.dom.viewOnlyChecked, scaleViewport := true,
            resizeSession := c.dom.resizeChecked }
        log := c.log ++
          [Effect.addEventListener "connect",
           Effect.addEventListener "disconnect",
           Effect.addEventListener "credentialsrequired",
           Effect.addEventListener "securityfailure",
           Effect.setViewOnly c.dom.viewOnlyChecked,
           Effect.setScaleViewport true,
           Effect.setResizeSession c.dom.resizeChecked] }
  else connectCatch rfbNotDefined c

/-- The method `loadNoVNC`, first part: the script element for `ui.js` is
appended; the promise is pending. -/
def loadNoVNCStart (c : Client) : Client :=
  { c with log := c.log ++ [Effect.appendScript "../noVNC/app/ui.js"] }

/-- The handler `script.onload` of `loadNoVNC`: the script element for `rfb.js`
is appended. -/
def uiScriptOnload (c : Client) : Client :=
  { c with log := c.log ++ [Effect.appendScript "../noVNC/core/rfb.js"] }

/-- The handler `rfbScript.onerror` of `loadNoVNC`, before it resolves. -/
def rfbScriptOnerror (c : Client) : Client :=
  showNotification "noVNC not found locally, using websockify interface" "warning" c

/-- The handler `script.onerror` of `loadNoVNC`: the page is sent to the
fallback URL and the promise rejects, which `connect` catches. -/
def uiScriptOnerror (c : Client) : Client :=
  let host := jsTrim c.dom.hostValue
  let port := numberToString (parseInt c.dom.portValue)
  let fallbackUrl := "http://" ++ host ++ ":" ++ port ++ "/vnc.html?host=" ++ host ++
    "&port=" ++ port ++ "&autoconnect=1"
  let c := { c with log := c.log ++ [Effect.navigate fallbackUrl] }
  connectCatch "Redirecting to websockify interface" c

/-- The method `loadNoVNC` followed by the rest of the `try` block of
`connect`, with the scripts loading or failing as `env` says. -/
def loadNoVNCThen (env : Env) (l : ConnectLocals) (c : Client) : Client :=
  let c := loadNoVNCStart c
  if env.uiScriptLoads then
    let c := uiScriptOnload c
    let c := if env.rfbScriptLoads then c else rfbScriptOnerror c
    connectBuild env env.rfbDefinedAfterLoad l c
  else uiScriptOnerror c

/-- The method `connect` up to the `try` block. The second component is the
locals when `connect` goes on into the `try` block, and `none` when it has
returned. -/
def connectBegin (c : Client) : Client × Option ConnectLocals :=
  if c.connecting || c.connected then (c, none)
  else
    let host := jsTrim c.dom.hostValue
    let port := parseInt c.dom.portValue
    let password := c.dom.passwordValue
    let encrypt := c.dom.encryptChecked
    if host = "" || !port.truthy then
      (showNotification "Please enter valid host and port" "error" c, none)
    else
      let c := { c with connecting := true }
      let c := updateStatus "connecting" "Connecting..." c
      let c := showLoading "Connecting to remote desktop..." c
      (c, some { host := host, port := port, password := password, encrypt := encrypt })

/-- The method `connect`, run to the end of its promise. -/
def connect (env : Env) (c : Client) : Client :=
  match connectBegin c with
  | (c, none) => c
  | (c, some l) =>
    if env.rfbDefined then connectBuild env true l c
    else loadNoVNCThen env l c

/-- The text of the type error raised when the property `resizeSession` of
the handle is called. -/
def resizeNotCallable : String := "TypeError: this.rfb.resizeSession is not a function"

/-- The method `resizeSession`. The property `resizeSession` of the handle
holds the boolean `connect` assigned to it, so calling it raises a type error
before anything reaches the handle; the `catch` block logs it. -/
def resizeSession (c : Client) : Client :=
  if c.rfb.isSome && c.connected && c.dom.resizeChecked then
    { c with log := c.log ++
        [Effect.consoleWarn ("Could not resize session: " ++ resizeNotCallable)] }
  else c

/-- The method `onConnect`. -/
def onConnect (c : Client) : Client :=
  let c := { c with connected := true, connecting := false }
  let c := hideLoading c
  let c := updateStatus "connected" "Connected" c
  let c := showNotification "Successfully connected to remote desktop" "success" c
  let c := { c with dom := { c.dom with
    connectionPanelDisplay := "none"
    vncContainerDisplay := "flex" } }
  let host := c.dom.hostValue
  let port := c.dom.portValue
  let c := { c with dom := { c.dom with
    connectionInfoText := "Connected to " ++ host ++ ":" ++ port } }
  if c.dom.resizeChecked then
    { c with log := c.log ++ [Effect.setTimeout Callback.resizeSession 1000] }
  else c

/-- The method `onDisconnect(e)`, given `e.detail.clean`. -/
def onDisconnect (clean : Bool) (c : Client) : Client :=
  let c := { c with connected := false, connecting := false }
  let c := hideLoading c
  let reason := if clean then "Connection closed" else "Connection lost"
  let c := updateStatus "disconnected" reason c
  let c := { c with dom := { c.dom with
    connectionPanelDisplay := "block"
    vncContainerDisplay := "none" } }
  let c := if !clean then showNotification "Connection lost unexpectedly" "error" c else c
  { c with rfb := none }

/-- The method `onCredentialsRequired`. -/
def onCredentialsRequired (c : Client) : Client :=
  let c := hideLoading c
  let c := showNotification "Password required for this connection" "warning" c
  { c with log := c.log ++ [Effect.focusPassword] }

/-- The method `onSecurityFailure(e)`, given `e.detail.reason`. -/
def onSecurityFailure (reason : String) (c : Client) : Client :=
  let c := hideLoading c
  let c := updateStatus "disconnected" "Security failure" c
  showNotification ("Security failure: " ++ reason) "error" c

/-- The method `disconnect`. -/
def disconnect (c : Client) : Client :=
  if c.rfb.isSome then { c with log := c.log ++ [Effect.rfbDisconnect] } else c

/-- The method `isFullscreen`. -/
def isFullscreen (p : Platform) : Bool :=
  p.fullscreenElementIsContainer || p.webkitFullscreenElementIsContainer ||
    p.msFullscreenElementIsContainer

/-- The method `enterFullscreen`. -/
def enterFullscreen (p : Platform) (c : Client) : Client :=
  let c := { c with dom := { c.dom with vncContainerFullscreen := true } }
  if p.hasRequestFullscreen then
    { c with log := c.log ++ [Effect.requestFullscreen Vendor.standard] }
  else if p.hasWebkitRequestFullscreen then
    { c with log := c.log ++ [Effect.requestFullscreen Vendor.webkit] }
  else if p.hasMsRequestFullscreen then
    { c with log := c.log ++ [Effect.requestFullscreen Vendor.ms] }
  else c

/-- The method `exitFullscreen`. -/
def exitFullscreen (p : Platform) (c : Client) : Client :=
  let c := { c with dom := { c.dom with vncContainerFullscreen := false } }
  if p.hasExitFullscreen then
    { c with log := c.log ++ [Effect.exitFullscreen Vendor.standard] }
  else if p.hasWebkitExitFullscreen then
    { c with log := c.log ++ [Effect.exitFullscreen Vendor.webkit] }
  else if p.hasMsExitFullscreen then
    { c with log := c.log ++ [Effect.exitFullscreen Vendor.ms] }
  else c

/-- The method `toggleFullscreen`. -/
def toggleFullscreen (p : Platform) (c : Client) : Client :=
  if isFullscreen p then exitFullscreen p c else enterFullscreen p c

/-- The method `sendCtrlAltDel`. -/
def sendCtrlAltDel (c : Client) : Client :=
  if c.rfb.isSome && c.connected then
    let c := { c with log := c.log ++ [Effect.rfbSendCtrlAltDel] }
    showNotification "Sent Ctrl+Alt+Del" "success" c
  else c

/-- The method `takeScreenshot`. -/
def takeScreenshot (c : Client) : Client :=
  if c.rfb.isSome && c.connected then
    showNotification "Screenshot feature not yet implemented" "warning" c
  else c

/-- The method `togglePanel`. -/
def togglePanel (c : Client) : Client :=
  if c.dom.connectionPanelDisplay = "none" then
    { c with dom := { c.dom with connectionPanelDisplay := "block" } }
  else
    { c with dom := { c.dom with connectionPanelDisplay := "none" } }

/-- The method `applyConfiguration`. -/
def applyConfiguration (c : Client) : Client :=
  let c := { c with dom := { c.dom with
    hostValue := (orElse (c.config "vncHost") (JsVal.str "localhost")).text
    portValue := (orElse (c.config "websocketPort") (JsVal.num 6080)).text
    encryptChecked := truthy (c.config "encryption")
    resizeChecked := decide (c.config "resizeSession" ≠ some (JsVal.bool false))
    title := (orElse (c.config "title") (JsVal.str "YesVNC - Remote Desktop")).text } }
  if truthy (c.config "autoConnect") then
    { c with log := c.log ++ [Effect.setTimeout Callback.connect 1000] }
  else c

/-- How the request of `loadConfiguration` ends. -/
inductive FetchOutcome where
  /-- The promise of `fetch` rejects (a network failure), with the message. -/
  | networkError (message : String)
  /-- A response whose `ok` is false (a status outside 200-299). -/
  | notOk
  /-- A response whose `ok` is true and whose body `response.json()` rejects. -/
  | parseError (message : String)
  /-- A response whose `ok` is true and whose body is the JSON value `null`;
  `message` is the text of the type error raised when a property of `null` is
  read. -/
  | nullBody (message : String)
  /-- A response whose `ok` is true and whose body is another JSON value,
  `doc` giving what reading each key of it yields. -/
  | document (doc : Config)

/-- The method `loadConfiguration`, run to the end of its promise. With the
body `null`, `this.config` is `null` when `applyConfiguration` reads
`this.config.vncHost`: that read throws before anything is assigned, and the
`catch` block runs. -/
def loadConfiguration (o : FetchOutcome) (c : Client) : Client :=
  match o with
  | FetchOutcome.document doc => applyConfiguration { c with config := doc }
  | FetchOutcome.nullBody message =>
    { c with
      config := getDefaultConfig
      log := c.log ++ [Effect.consoleWarn ("Could not load configuration: " ++ message)] }
  | FetchOutcome.notOk => c
  | FetchOutcome.networkError message =>
    { c with
      config := getDefaultConfig
      log := c.log ++ [Effect.consoleWarn ("Could not load configuration: " ++ message)] }
  | FetchOutcome.parseError message =>
    { c with
      config := getDefaultConfig
      log := c.log ++ [Effect.consoleWarn ("Could not load configuration: " ++ message)] }

/-- The constructor, up to the call of `loadConfiguration` (whose promise
settles later): the fields are initialised and the status is set. `page` is the
page as loaded. -/
def construct (page : Dom) : Client :=
  updateStatus "disconnected" "Disconnected"
    { rfb := none, connected := false, connecting := false, config := emptyConfig,
      dom := page, log := [] }

/-- The notifications in a log, in order: message and type. -/
def notifications : List Effect → List (String × String)
  | [] => []
  | Effect.showNotification m t :: r => (m, t) :: notifications r
  | _ :: r => notifications r

/-- The URLs the `RFB` constructor was called with, in order. -/
def constructed : List Effect → List String
  | [] => []
  | Effect.newRFB u _ _ _ :: r => u :: constructed r
  | _ :: r => constructed r

/-- The status updates in a log, in order: state and message. -/
def statusUpdates : List Effect → List (String × String)
  | [] => []
  | Effect.updateStatus s m :: r => (s, m) :: statusUpdates r
  | _ :: r => statusUpdates r

/-- Whether an effect is a call on the external client: the constructor or an
operation or property of the handle. -/
def isClientCall : Effect → Bool
  | Effect.newRFB _ _ _ _ => true
  | Effect.addEventListener _ => true
  | Effect.setViewOnly _ => true
  | Effect.setScaleViewport _ => true
  | Effect.setResizeSession _ => true
  | Effect.rfbDisconnect => true
  | Effect.rfbSendCtrlAltDel => true
  | _ => false

/-- Whether an effect is a call on the platform full-screen capability. -/
def isFullscreenCall : Effect → Bool
  | Effect.requestFullscreen _ => true
  | Effect.exitFullscreen _ => true
  | _ => false

/-! ## Runs of the controller -/

/-- The values a user can give the form fields. -/
structure Form where
  host : String
  port : String
  password : String
  encrypt : Bool
  resize : Bool
  viewOnly : Bool
  deriving DecidableEq, Repr

/-- The user edits the form. -/
def editForm (f : Form) (c : Client) : Client :=
  { c with dom := { c.dom with
    hostValue := f.host
    portValue := f.port
    passwordValue := f.password
    encryptChecked := f.encrypt
    resizeChecked := f.resize
    viewOnlyChecked := f.viewOnly } }

/-- The listener of the window `resize` event. -/
def onWindowResize (c : Client) : Client :=
  if c.rfb.isSome && c.dom.resizeChecked then resizeSession c else c

/-- One turn of the event loop on the controller: a method called by a page
event, a timer or the client handle, or one of the pieces of `connect` that
run separately when `connect` waits for `loadNoVNC`. -/
inductive Action where
  | connect (env : Env)
  | disconnect
  | onConnect
  | onDisconnect (clean : Bool)
  | onCredentialsRequired
  | onSecurityFailure (reason : String)
  | onConnectionError (message : String)
  | loadConfiguration (o : FetchOutcome)
  | editForm (f : Form)
  | sendCtrlAltDel
  | takeScreenshot
  | resizeSession
  | onWindowResize
  | toggleFullscreen (p : Platform)
  | exitFullscreen (p : Platform)
  | togglePanel
  | hideNotification
  | connectSuspend
  | uiScriptOnload
  | uiScriptOnerror
  | rfbScriptOnload (env : Env) (defined : Bool) (l : ConnectLocals)
  | rfbScriptOnerror (env : Env) (defined : Bool) (l : ConnectLocals)

/-- The effect of one action. -/
def step (a : Action) (c : Client) : Client :=
  match a with
  | Action.connect env => connect env c
  | Action.disconnect => disconnect c
  | Action.onConnect => onConnect c
  | Action.onDisconnect clean => onDisconnect clean c
  | Action.onCredentialsRequired => onCredentialsRequired c
  | Action.onSecurityFailure reason => onSecurityFailure reason c
  | Action.onConnectionError message => onConnectionError message c
  | Action.loadConfiguration o => loadConfiguration o c
  | Action.editForm f => editForm f c
  | Action.sendCtrlAltDel => sendCtrlAltDel c
  | Action.takeScreenshot => takeScreenshot c
  | Action.resizeSession => resizeSession c
  | Action.onWindowResize => onWindowResize c
  | Action.toggleFullscreen p => toggleFullscreen p c
  | Action.exitFullscreen p => exitFullscreen p c
  | Action.togglePanel => togglePanel c
  | Action.hideNotification => hideNotification c
  | Action.connectSuspend =>
    match connectBegin c with
    | (c, none) => c
    | (c, some _) => loadNoVNCStart c
  | Action.uiScriptOnload => uiScriptOnload c
  | Action.uiScriptOnerror => uiScriptOnerror c
  | Action.rfbScriptOnload env defined l => connectBuild env defined l c
  | Action.rfbScriptOnerror env defined l => connectBuild env defined l (rfbScriptOnerror c)

/-- The controller after the actions of `as`, in order, from `c`. -/
def run (as : List Action) (c : Client) : Client :=
  as.foldl (fun c a => step a c) c

/-! ## Sample inputs -/

/-- A page as loaded: empty form, panel shown. -/
def samplePage : Dom :=
  { hostValue := "", portValue := "", passwordValue := "",
    encryptChecked := false, resizeChecked := true, viewOnlyChecked := false,
    statusIndicatorClass := "status-indicator", statusText := "",
    connectBtnDisabled := false, disconnectBtnDisabled := true,
    fullscreenBtnDisabled := true, ctrlAltDelBtnDisabled := true,
    screenshotBtnDisabled := true,
    connectionPanelDisplay := "block", vncContainerDisplay := "none",
    vncContainerFullscreen := false,
    loadingOverlayDisplay := "none", loadingText := "Loading...",
    connectionInfoText := "",
    notificationText := "", notificationClass := "notification",
    notificationDisplay := "none", title := "YesVNC" }

/-- Surroundings in which `RFB` is defined and its constructor returns. -/
def libraryAvailable : Env :=
  { rfbDefined := true, uiScriptLoads := true, rfbScriptLoads := true,
    rfbDefinedAfterLoad := true, ctorThrows := none }

/-- A platform with the standard full-screen capability, not in full screen. -/
def samplePlatform : Platform :=
  { fullscreenElementIsContainer := false, webkitFullscreenElementIsContainer := false,
    msFullscreenElementIsContainer := false,
    hasRequestFullscreen := true, hasWebkitRequestFullscreen := false,
    hasMsRequestFullscreen := false,
    hasExitFullscreen := true, hasWebkitExitFullscreen := false,
    hasMsExitFullscreen := false }

/-- The controller as constructed on `samplePage`, with the form filled by
the user. -/
def filled (host port : String) (encrypt : Bool) : Client :=
  editForm { host := host, port := port, password := "", encrypt := encrypt,
             resize := true, viewOnly := false } (construct samplePage)

/-- The controller in the state Connecting: `connect` has been called for host
`vncbox` and port `6080`, and no event has arrived yet. -/
def connectingClient : Client :=
  connect libraryAvailable (filled "vncbox" "6080" false)

/-- A configuration document that has only the key `vncHost`. -/
def hostOnlyDoc : Config := fun k =>
  if k = "vncHost" then some (JsVal.str "10.0.0.5") else none

/-! ## Projections of the building blocks -/

@[simp] theorem updateStatus_connecting (s m : String) (c : Client) :
    (updateStatus s m c).connecting = c.connecting := rfl

@[simp] theorem updateStatus_connected (s m : String) (c : Client) :
    (updateStatus s m c).connected = c.connected := rfl

@[simp] theorem updateStatus_rfb (s m : String) (c : Client) :
    (updateStatus s m c).rfb = c.rfb := rfl

@[simp] theorem updateStatus_config (s m : String) (c : Client) :
    (updateStatus s m c).config = c.config := rfl

@[simp] theorem updateStatus_log (s m : String) (c : Client) :
    (updateStatus s m c).log = c.log ++ [Effect.updateStatus s m] := rfl

@[simp] theorem showNotification_connecting (m t : String) (c : Client) :
    (showNotification m t c).connecting = c.connecting := rfl

@[simp] theorem showNotification_connected (m t : String) (c : Client) :
    (showNotification m t c).connected = c.connected := rfl

@[simp] theorem showNotification_rfb (m t : String) (c : Client) :
    (showNotification m t c).rfb = c.rfb := rfl

@[simp] theorem showNotification_config (m t : String) (c : Client) :
    (showNotification m t c).config = c.config := rfl

@[simp] theorem showNotification_log (m t : String) (c : Client) :
    (showNotification m t c).log =
      c.log ++ [Effect.showNotification m t, Effect.setTimeout Callback.hideNotification 5000] :=
  rfl

@[simp] theorem hideLoading_connecting (c : Client) :
    (hideLoading c).connecting = c.connecting := rfl

@[simp] theorem hideLoading_connected (c : Client) :
    (hideLoading c).connected = c.connected := rfl

@[simp] theorem hideLoading_rfb (c : Client) : (hideLoading c).rfb = c.rfb := rfl

@[simp] theorem hideLoading_config (c : Client) : (hideLoading c).config = c.config := rfl

@[simp] theorem hideLoading_log (c : Client) : (hideLoading c).log = c.log := rfl

@[simp] theorem showLoading_connecting (m : String) (c : Client) :
    (showLoading m c).connecting = c.connecting := rfl

@[simp] theorem showLoading_connected (m : String) (c : Client) :
    (showLoading m c).connected = c.connected := rfl

@[simp] theorem showLoading_rfb (m : String) (c : Client) : (showLoading m c).rfb = c.rfb := rfl

@[simp] theorem showLoading_config (m : String) (c : Client) :
    (showLoading m c).config = c.config := rfl

@[simp] theorem showLoading_log (m : String) (c : Client) : (showLoading m c).log = c.log := rfl

/-! ## Reading a log -/

theorem notifications_append (xs ys : List Effect) :
    notifications (xs ++ ys) = notifications xs ++ notifications ys := by
  induction xs with
  | nil => rfl
  | cons x xs ih => cases x <;> simp [notifications, ih]

theorem constructed_append (xs ys : List Effect) :
    constructed (xs ++ ys) = constructed xs ++ constructed ys := by
  induction xs with
  | nil => rfl
  | cons x xs ih => cases x <;> simp [constructed, ih]

theorem statusUpdates_append (xs ys : List Effect) :
    statusUpdates (xs ++ ys) = statusUpdates xs ++ statusUpdates ys := by
  induction xs with
  | nil => rfl
  | cons x xs ih => cases x <;> simp [statusUpdates, ih]

/-! ## The error handlers -/

theorem onConnectionError_connecting (m : String) (c : Client) :
    (onConnectionError m c).connecting = false := rfl

theorem onConnectionError_connected (m : String) (c : Client) :
    (onConnectionError m c).connected = c.connected := rfl

theorem onConnectionError_rfb (m : String) (c : Client) :
    (onConnectionError m c).rfb = c.rfb := rfl

theorem onSecurityFailure_connecting (r : String) (c : Client) :
    (onSecurityFailure r c).connecting = c.connecting := rfl

theorem onSecurityFailure_connected (r : String) (c : Client) :
    (onSecurityFailure r c).connected = c.connected := rfl

theorem onSecurityFailure_rfb (r : String) (c : Client) :
    (onSecurityFailure r c).rfb = c.rfb := rfl

theorem connectCatch_connecting (m : String) (c : Client) :
    (connectCatch m c).connecting = false := rfl

theorem connectCatch_connected (m : String) (c : Client) :
    (connectCatch m c).connected = c.connected := rfl

/-! ## `connect` -/

/-- While Connecting or Connected, `connect` returns at its first statement. -/
theorem connectBegin_busy (c : Client) (h : c.connecting = true ∨ c.connected = true) :
    connectBegin c = (c, none) := by
  unfold connectBegin
  rcases h with h | h <;> simp [h]

/-- C1. Called while `connecting` or `connected` is true, `connect` is a no-op
whatever the form fields hold: the controller is returned as it was, so the
flags and `rfb` are unchanged, and the log is unchanged, so no `RFB` is
constructed and no status update or notification is emitted. -/
theorem connect_noop_when_busy (env : Env) (c : Client)
    (h : c.connecting = true ∨ c.connected = true) :
    connect env c = c ∧
    (connect env c).connecting = c.connecting ∧
    (connect env c).connected = c.connected ∧
    (connect env c).rfb = c.rfb ∧
    (connect env c).log = c.log := by
  have e : connect env c = c := by
    unfold connect
    rw [connectBegin_busy c h]
  rw [e]
  exact ⟨rfl, rfl, rfl, rfl, rfl⟩

/-- Witness of C1: the sample controller in the state Connecting, with the form
still holding `vncbox` and `6080`. -/
theorem connect_noop_when_busy_witness :
    (connectingClient.connecting = true ∨ connectingClient.connected = true) ∧
    connect libraryAvailable connectingClient = connectingClient ∧
    (connect libraryAvailable connectingClient).log = connectingClient.log :=
  have h : connectingClient.connecting = true ∨ connectingClient.connected = true :=
    Or.inl (by decide)
  ⟨h, (connect_noop_when_busy libraryAvailable connectingClient h).1,
    (connect_noop_when_busy libraryAvailable connectingClient h).2.2.2.2⟩

/-- The validation branch of `connect`. -/
theorem connectBegin_invalid (c : Client)
    (hing : c.connecting = false) (hed : c.connected = false)
    (h : jsTrim c.dom.hostValue = "" ∨ (parseInt c.dom.portValue).truthy = false) :
    connectBegin c =
      (showNotification "Please enter valid host and port" "error" c, none) := by
  unfold connectBegin
  rcases h with h | h <;> simp [hing, hed, h]

/-- C2. From Disconnected, when the host field is empty after trimming or the
port field parses to `NaN`, `connect` leaves both flags false and `rfb` as it
was, constructs no `RFB`, updates no status, and emits exactly one
notification, the message `Please enter valid host and port` of type `error`. -/
theorem connect_invalid_input (env : Env) (c : Client)
    (hing : c.connecting = false) (hed : c.connected = false)
    (h : jsTrim c.dom.hostValue = "" ∨ parseInt c.dom.portValue = JsNumber.nan) :
    (connect env c).connecting = false ∧
    (connect env c).connected = false ∧
    (connect env c).rfb = c.rfb ∧
    notifications (connect env c).log =
      notifications c.log ++ [("Please enter valid host and port", "error")] ∧
    constructed (connect env c).log = constructed c.log ∧
    statusUpdates (connect env c).log = statusUpdates c.log := by
  have h' : jsTrim c.dom.hostValue = "" ∨ (parseInt c.dom.portValue).truthy = false := by
    rcases h with h | h
    · exact Or.inl h
    · exact Or.inr (by rw [h]; rfl)
  have e : connect env c = showNotification "Please enter valid host and port" "error" c := by
    unfold connect
    rw [connectBegin_invalid c hing hed h']
  rw [e]
  refine ⟨?_, ?_, ?_, ?_, ?_, ?_⟩
  · simpa using hing
  · simpa using hed
  · simp
  · simp [notifications_append, notifications]
  · simp [constructed_append, constructed]
  · simp [statusUpdates_append, statusUpdates]

/-- Witness of C2: the form holds host `vncbox` and the port text `abc`, which
`parseInt` turns into `NaN`. -/
theorem connect_invalid_input_witness :
    parseInt (filled "vncbox" "abc" false).dom.portValue = JsNumber.nan ∧
    (connect libraryAvailable (filled "vncbox" "abc" false)).connecting = false ∧
    notifications (connect libraryAvailable (filled "vncbox" "abc" false)).log =
      notifications (filled "vncbox" "abc" false).log ++
        [("Please enter valid host and port", "error")] :=
  have r := connect_invalid_input libraryAvailable (filled "vncbox" "abc" false)
    (by decide) (by decide) (Or.inr (by decide))
  ⟨by decide, r.1, r.2.2.2.1⟩

/-- The branch of `connect` that goes on into the `try` block. -/
theorem connectBegin_valid (c : Client)
    (hing : c.connecting = false) (hed : c.connected = false)
    (hh : jsTrim c.dom.hostValue ≠ "") (hp : (parseInt c.dom.portValue).truthy = true) :
    connectBegin c =
      (showLoading "Connecting to remote desktop..."
          (updateStatus "connecting" "Connecting..." { c with connecting := true }),
        some { host := jsTrim c.dom.hostValue, port := parseInt c.dom.portValue,
               password := c.dom.passwordValue, encrypt := c.dom.encryptChecked }) := by
  unfold connectBegin
  simp [hing, hed, hh, hp]

/-- The scheme and the two slashes of the URL, joined. -/
theorem scheme_slashes (encrypt : Bool) :
    (if encrypt then "wss:" else "ws:") ++ "//" = if encrypt then "wss://" else "ws://" := by
  cases encrypt <;> decide

/-- A safe integer prints as its decimal digits. -/
theorem numberToString_safe (p : Int) (h : p.natAbs < 2 ^ 53) :
    numberToString (JsNumber.int p) = decimal p := by
  show (if p.natAbs < 2 ^ 53 then decimal p
    else (if p < 0 then "-" else "") ++ integerToString p.natAbs) = decimal p
  rw [if_pos h]

/-- C7, counterexample. From Disconnected with `RFB` defined, host `vncbox` and
the port text `1000000000000000000000`, which parses to the non-zero integer
`10^21`: `connect` calls the `RFB` constructor with `ws://vncbox:1e+21/websockify`,
which is not `ws://vncbox:` followed by the decimal digits of the port and
`/websockify`. -/
theorem connect_url_exponent_form :
    parseInt "1000000000000000000000" = JsNumber.int 1000000000000000000000 ∧
    jsTrim "vncbox" = "vncbox" ∧
    (filled "vncbox" "1000000000000000000000" false).connecting = false ∧
    (filled "vncbox" "1000000000000000000000" false).connected = false ∧
    libraryAvailable.rfbDefined = true ∧
    (filled "vncbox" "1000000000000000000000" false).dom.encryptChecked = false ∧
    constructed (connect libraryAvailable (filled "vncbox" "1000000000000000000000" false)).log =
      ["ws://vncbox:1e+21/websockify"] ∧
    constructed (connect libraryAvailable (filled "vncbox" "1000000000000000000000" false)).log ≠
      ["ws://" ++ "vncbox" ++ ":" ++ decimal 1000000000000000000000 ++ "/websockify"] := by
  decide

/-- C7, amended. From Disconnected with `RFB` defined, for a host whose trimmed
value `h` is not empty and a port field parsing to a non-zero safe integer `p`
(below `2^53` in absolute value), `connect` calls the `RFB` constructor exactly
once, with the URL `ws://h:p/websockify` when the encryption box is unchecked
and `wss://h:p/websockify` when it is checked, `p` in decimal digits; when the
constructor returns, `rfb` is the handle for that URL and `connecting` is
true. -/
theorem connect_builds_url (env : Env) (c : Client) (h : String) (p : Int)
    (hing : c.connecting = false) (hed : c.connected = false)
    (hdef : env.rfbDefined = true)
    (hh : jsTrim c.dom.hostValue = h) (hne : h ≠ "")
    (hp : parseInt c.dom.portValue = JsNumber.int p) (hp0 : p ≠ 0)
    (hsafe : p.natAbs < 2 ^ 53) :
    constructed (connect env c).log = constructed c.log ++
      [(if c.dom.encryptChecked then "wss://" else "ws://") ++ h ++ ":" ++ decimal p ++
        "/websockify"] ∧
    (env.ctorThrows = none →
      (connect env c).connecting = true ∧ (connect env c).connected = false ∧
      (connect env c).rfb.map Rfb.url =
        some ((if c.dom.encryptChecked then "wss://" else "ws://") ++ h ++ ":" ++ decimal p ++
          "/websockify")) := by
  have ht : (parseInt c.dom.portValue).truthy = true := by
    rw [hp]; simp [JsNumber.truthy, hp0]
  have hb := connectBegin_valid c hing hed (by rw [hh]; exact hne) ht
  have hs := scheme_slashes c.dom.encryptChecked
  have hn := numberToString_safe p hsafe
  constructor
  · unfold connect
    rw [hb]
    simp only [hdef, if_true]
    unfold connectBuild
    simp only [if_true, hs, hh, hp, hn]
    cases hc : env.ctorThrows with
    | none =>
      simp [constructed_append, constructed]
    | some m =>
      simp [connectCatch, onConnectionError, constructed_append, constructed]
  · intro hc
    unfold connect
    rw [hb]
    simp only [hdef, if_true]
    unfold connectBuild
    simp only [if_true, hs, hh, hp, hn, hc]
    simp [hed]

/-- Witness of C7: host `vncbox`, port `6080`, encryption unchecked give
`ws://vncbox:6080/websockify`. -/
theorem connect_builds_url_witness :
    constructed (connect libraryAvailable (filled "vncbox" "6080" false)).log =
      ["ws://vncbox:6080/websockify"] ∧
    (connect libraryAvailable (filled "vncbox" "6080" false)).connecting = true ∧
    (connect libraryAvailable (filled "vncbox" "6080" false)).rfb.map Rfb.url =
      some "ws://vncbox:6080/websockify" :=
  have r := connect_builds_url libraryAvailable (filled "vncbox" "6080" false) "vncbox" 6080
    (by decide) (by decide) (by decide) (by decide) (by decide) (by decide) (by decide)
    (by decide)
  ⟨r.1, (r.2 (by decide)).1, (r.2 (by decide)).2.2⟩

/-- C6, the code at the failing input. From Disconnected with host `vncbox`,
the port text `-5` parses to the integer `-5`, which `connect` takes as a
port: no notification is emitted, the `RFB` constructor is called with
`ws://vncbox:-5/websockify`, and `connecting` is true. The port text `0` is
refused with the validation message. -/
theorem connect_accepts_negative_port :
    parseInt "-5" = JsNumber.int (-5) ∧
    (filled "vncbox" "-5" false).connecting = false ∧
    (filled "vncbox" "-5" false).connected = false ∧
    (connect libraryAvailable (filled "vncbox" "-5" false)).connecting = true ∧
    constructed (connect libraryAvailable (filled "vncbox" "-5" false)).log =
      ["ws://vncbox:-5/websockify"] ∧
    notifications (connect libraryAvailable (filled "vncbox" "-5" false)).log = [] ∧
    (connect libraryAvailable (filled "vncbox" "0" false)).connecting = false ∧
    constructed (connect libraryAvailable (filled "vncbox" "0" false)).log = [] ∧
    notifications (connect libraryAvailable (filled "vncbox" "0" false)).log =
      [("Please enter valid host and port", "error")] := by
  decide

/-! ## The callbacks of the client handle -/

/-- C8. For every prior state, `onDisconnect` with `clean` true emits no
notification (so no error notification) and with `clean` false emits exactly
one, of type `error`; in both cases `connecting` and `connected` are false and
`rfb` is `null` afterwards. -/
theorem onDisconnect_notifications (c : Client) :
    notifications (onDisconnect true c).log = notifications c.log ∧
    notifications (onDisconnect false c).log =
      notifications c.log ++ [("Connection lost unexpectedly", "error")] ∧
    (∀ clean : Bool,
      (onDisconnect clean c).connecting = false ∧
      (onDisconnect clean c).connected = false ∧
      (onDisconnect clean c).rfb = none) := by
  refine ⟨?_, ?_, ?_⟩
  · simp [onDisconnect, notifications_append, notifications]
  · simp [onDisconnect, notifications_append, notifications]
  · intro clean
    cases clean <;> exact ⟨rfl, rfl, rfl⟩

/-- C3, the code at the failing input. A security failure with reason
`Invalid password` arrives while the controller is Connecting. Afterwards
`connecting` is still true and `rfb` is still the handle, although the status
shown is `disconnected` and the connect button is enabled; a following
`connect` returns at its guard: it constructs nothing and logs nothing. The
notification is `Security failure: Invalid password`. -/
theorem onSecurityFailure_stays_connecting :
    connectingClient.connecting = true ∧
    (onSecurityFailure "Invalid password" connectingClient).connecting = true ∧
    (onSecurityFailure "Invalid password" connectingClient).connected = false ∧
    (onSecurityFailure "Invalid password" connectingClient).dom.statusIndicatorClass =
      "status-indicator disconnected" ∧
    (onSecurityFailure "Invalid password" connectingClient).dom.connectBtnDisabled = false ∧
    notifications (onSecurityFailure "Invalid password" connectingClient).log =
      [("Security failure: Invalid password", "error")] ∧
    (connect libraryAvailable (onSecurityFailure "Invalid password" connectingClient)).log =
      (onSecurityFailure "Invalid password" connectingClient).log ∧
    (connect libraryAvailable
      (onSecurityFailure "Invalid password" connectingClient)).connecting = true := by
  decide

/-- C4, the code at the failing input. From the state Connecting, where `rfb` is
the handle for `ws://vncbox:6080/websockify`, `onDisconnect` leaves `rfb` null,
while `onSecurityFailure` and `onConnectionError` leave `rfb` the same handle. -/
theorem error_handlers_keep_handle :
    connectingClient.rfb.map Rfb.url = some "ws://vncbox:6080/websockify" ∧
    (onDisconnect false connectingClient).rfb = none ∧
    (onDisconnect true connectingClient).rfb = none ∧
    (onSecurityFailure "Invalid password" connectingClient).rfb = connectingClient.rfb ∧
    (onSecurityFailure "Invalid password" connectingClient).rfb ≠ none ∧
    (onConnectionError "addEventListener failed" connectingClient).rfb = connectingClient.rfb ∧
    (onConnectionError "addEventListener failed" connectingClient).rfb ≠ none := by
  decide

/-! ## Configuration loading -/

/-- C5, counterexample. The request succeeds with a document that has only
`vncHost`. After `loadConfiguration` the key `title` of `this.config` is
`undefined`, while `getDefaultConfig` has a title: the field is neither the
fetched value nor the default. -/
theorem loadConfiguration_not_merged :
    hostOnlyDoc "title" = none ∧
    getDefaultConfig "title" = some (JsVal.str "YesVNC - Remote Desktop") ∧
    (loadConfiguration (FetchOutcome.document hostOnlyDoc) (construct samplePage)).config "title" =
      none ∧
    (loadConfiguration (FetchOutcome.document hostOnlyDoc) (construct samplePage)).config "title" ≠
      getDefaultConfig "title" := by
  decide

/-- The method `applyConfiguration` does not assign `this.config`. -/
theorem applyConfiguration_config (c : Client) : (applyConfiguration c).config = c.config := by
  unfold applyConfiguration
  simp only
  split <;> rfl

/-- C5, amended. After a successful response whose body is not `null`,
`this.config` is the fetched document itself: each key has the fetched value
when the document supplies it and is `undefined` otherwise. After a network
failure, a parse failure, or a successful response whose body is `null`,
`this.config` is `getDefaultConfig()`: each of its ten keys is defined and has
the default value. -/
theorem loadConfiguration_config (c : Client) (k : String) :
    (∀ doc : Config, (loadConfiguration (FetchOutcome.document doc) c).config k = doc k) ∧
    (∀ m : String,
      (loadConfiguration (FetchOutcome.networkError m) c).config k = getDefaultConfig k) ∧
    (∀ m : String,
      (loadConfiguration (FetchOutcome.parseError m) c).config k = getDefaultConfig k) ∧
    (∀ m : String,
      (loadConfiguration (FetchOutcome.nullBody m) c).config k = getDefaultConfig k) ∧
    (k ∈ configKeys → (getDefaultConfig k).isSome = true) := by
  refine ⟨?_, ?_, ?_, ?_, ?_⟩
  · intro doc
    simp [loadConfiguration, applyConfiguration_config]
  · intro m; rfl
  · intro m; rfl
  · intro m; rfl
  · intro hk
    simp only [configKeys, List.mem_cons, List.mem_singleton, List.not_mem_nil, or_false] at hk
    rcases hk with h | h | h | h | h | h | h | h | h | h <;> subst h <;> decide

/-! ## Auxiliary operations -/

/-- C9, the code at the failing input. The controller as constructed is not
Connected and its full-screen button is disabled. There `sendCtrlAltDel`,
`takeScreenshot` and `resizeSession` add nothing to the log, while
`toggleFullscreen` (the key F11) calls the platform `requestFullscreen` and
adds the class `fullscreen` to the session view. -/
theorem toggleFullscreen_not_gated :
    (construct samplePage).connected = false ∧
    (construct samplePage).connecting = false ∧
    (construct samplePage).rfb = none ∧
    (construct samplePage).dom.fullscreenBtnDisabled = true ∧
    (sendCtrlAltDel (construct samplePage)).log = (construct samplePage).log ∧
    (takeScreenshot (construct samplePage)).log = (construct samplePage).log ∧
    (resizeSession (construct samplePage)).log = (construct samplePage).log ∧
    (construct samplePage).dom.vncContainerFullscreen = false ∧
    (toggleFullscreen samplePlatform (construct samplePage)).dom.vncContainerFullscreen = true ∧
    (toggleFullscreen samplePlatform (construct samplePage)).log =
      (construct samplePage).log ++ [Effect.requestFullscreen Vendor.standard] := by
  decide

/-- What `toggleFullscreen` leaves alone: the fields of the controller, and in
the log everything but calls of the platform full-screen capability. -/
theorem toggleFullscreen_frame (p : Platform) (c : Client) :
    (toggleFullscreen p c).connecting = c.connecting ∧
    (toggleFullscreen p c).connected = c.connected ∧
    (toggleFullscreen p c).rfb = c.rfb ∧
    (toggleFullscreen p c).log.filter (fun e => !isFullscreenCall e) =
      c.log.filter (fun e => !isFullscreenCall e) := by
  unfold toggleFullscreen exitFullscreen enterFullscreen
  cases p with
  | mk a b d r1 r2 r3 x1 x2 x3 =>
    cases hf : isFullscreen ⟨a, b, d, r1, r2, r3, x1, x2, x3⟩ <;>
      cases r1 <;> cases r2 <;> cases r3 <;> cases x1 <;> cases x2 <;> cases x3 <;>
      simp [List.filter_append, isFullscreenCall]

/-! ## The flags along a run -/

/-- The flags `connecting` and `connected` are not both true. -/
def FlagsExclusive (c : Client) : Prop :=
  ¬ (c.connecting = true ∧ c.connected = true)

theorem connectBuild_flags (env : Env) (defined : Bool) (l : ConnectLocals) (c : Client)
    (h : FlagsExclusive c) : FlagsExclusive (connectBuild env defined l c) := by
  unfold FlagsExclusive at *
  unfold connectBuild
  cases defined
  · simp [connectCatch_connecting]
  · simp only [if_true]
    cases env.ctorThrows with
    | none => simpa using h
    | some m => simp [connectCatch_connecting]

theorem connectBegin_flags (c : Client) (h : FlagsExclusive c) :
    FlagsExclusive (connectBegin c).1 := by
  unfold FlagsExclusive at *
  unfold connectBegin
  cases hing : c.connecting <;> cases hed : c.connected <;> simp_all
  split <;> simp [hing, hed]

theorem uiScriptOnerror_flags (c : Client) :
    FlagsExclusive (uiScriptOnerror c) := by
  unfold FlagsExclusive uiScriptOnerror
  simp [connectCatch_connecting]

theorem connect_flags (env : Env) (c : Client) (h : FlagsExclusive c) :
    FlagsExclusive (connect env c) := by
  have hb := connectBegin_flags c h
  unfold connect
  cases hcb : connectBegin c with
  | mk c1 o =>
    rw [hcb] at hb
    cases o with
    | none => exact hb
    | some l =>
      simp only
      split
      · exact connectBuild_flags env true l c1 hb
      · unfold loadNoVNCThen
        simp only
        split
        · apply connectBuild_flags
          split
          · exact hb
          · exact hb
        · exact uiScriptOnerror_flags _

theorem step_flags (a : Action) (c : Client) (h : FlagsExclusive c) :
    FlagsExclusive (step a c) := by
  cases a with
  | connect env => exact connect_flags env c h
  | disconnect =>
    show FlagsExclusive (disconnect c)
    unfold disconnect
    split <;> exact h
  | onConnect =>
    show FlagsExclusive (onConnect c)
    unfold FlagsExclusive onConnect
    simp only
    split <;> simp
  | onDisconnect clean =>
    show FlagsExclusive (onDisconnect clean c)
    unfold FlagsExclusive
    intro hh
    have : (onDisconnect clean c).connecting = false := by cases clean <;> rfl
    simp [this] at hh
  | onCredentialsRequired => exact h
  | onSecurityFailure reason => exact h
  | onConnectionError message =>
    show FlagsExclusive (onConnectionError message c)
    unfold FlagsExclusive
    simp [onConnectionError_connecting]
  | loadConfiguration o =>
    show FlagsExclusive (loadConfiguration o c)
    cases o with
    | networkError m => exact h
    | nullBody m => exact h
    | notOk => exact h
    | parseError m => exact h
    | document doc =>
      unfold loadConfiguration applyConfiguration
      simp only
      split <;> exact h
  | editForm f => exact h
  | sendCtrlAltDel =>
    show FlagsExclusive (sendCtrlAltDel c)
    unfold sendCtrlAltDel
    split <;> exact h
  | takeScreenshot =>
    show FlagsExclusive (takeScreenshot c)
    unfold takeScreenshot
    split <;> exact h
  | resizeSession =>
    show FlagsExclusive (resizeSession c)
    unfold resizeSession
    split <;> exact h
  | onWindowResize =>
    show FlagsExclusive (onWindowResize c)
    unfold onWindowResize resizeSession
    split
    · split <;> exact h
    · exact h
  | toggleFullscreen p =>
    have t := toggleFullscreen_frame p c
    show FlagsExclusive (toggleFullscreen p c)
    unfold FlagsExclusive
    rw [t.1, t.2.1]
    exact h
  | exitFullscreen p =>
    show FlagsExclusive (exitFullscreen p c)
    unfold exitFullscreen
    simp only
    split
    · exact h
    · split
      · exact h
      · split <;> exact h
  | togglePanel =>
    show FlagsExclusive (togglePanel c)
    unfold togglePanel
    split <;> exact h
  | hideNotification => exact h
  | connectSuspend =>
    have hb := connectBegin_flags c h
    show FlagsExclusive (match connectBegin c with
      | (c, none) => c
      | (c, some _) => loadNoVNCStart c)
    cases hcb : connectBegin c with
    | mk c1 o =>
      rw [hcb] at hb
      cases o with
      | none => exact hb
      | some l => exact hb
  | uiScriptOnload => exact h
  | uiScriptOnerror => exact uiScriptOnerror_flags c
  | rfbScriptOnload env defined l => exact connectBuild_flags env defined l c h
  | rfbScriptOnerror env defined l => exact connectBuild_flags env defined l _ h

theorem run_flags (as : List Action) (c : Client) (h : FlagsExclusive c) :
    FlagsExclusive (run as c) := by
  induction as generalizing c with
  | nil => exact h
  | cons a as ih => exact ih (step a c) (step_flags a c h)

/-- C10. In every state reached from the constructed controller (`connecting`
false, `connected` false, `rfb` null) by a finite sequence of actions, among
them `connect`, `disconnect`, `onConnect`, `onDisconnect`,
`onCredentialsRequired`, `onSecurityFailure` and `onConnectionError`, the flags
`connecting` and `connected` are not both true. -/
theorem connecting_connected_exclusive (page : Dom) (as : List Action) :
    (construct page).connecting = false ∧ (construct page).connected = false ∧
    (construct page).rfb = none ∧
    ¬ ((run as (construct page)).connecting = true ∧
       (run as (construct page)).connected = true) :=
  ⟨rfl, rfl, rfl, run_flags as (construct page) (by unfold FlagsExclusive; simp [construct])⟩

end YesVNC
